import Mathlib

/-!
Verification development for the SQL-candidate validation classifier
(`SQLGenPostProcessor.run` / `SQLGenPostProcessor._classify_generation_result`
in `src/pipelines/generation/utils/sql.py`) and for the instructions service
event lookup (`InstructionsService.__getitem__` in
`src/web/v1/services/instructions.py`).

Modelling conventions:
- Python string-valued dicts are insertion-ordered association lists
  (`Dict := List (String × String)`); an absent key is visible as a failed
  lookup, exactly as in Python.
- External collaborators (`add_quotes`, `clean_generation_result`,
  `orjson.loads(...)["sql"]`, the engine) are parameters of the embedded
  functions; fallible collaborators return `Except String α`, a raised
  exception being the `.error` case.
- The classifier additionally returns the list of engine operations it
  invoked (`EngineCall`), which makes "the engine is never called" and the
  strategy-selection order directly observable.
-/

set_option autoImplicit false

namespace WrenSql

/-- A Python dict with string keys and string values, kept in insertion
order as an association list. -/
abbrev Dict := List (String × String)

/-- First binding of key `k` in `d`, `none` when the key is absent
(Python `k in d` / `d[k]`). -/
def dictLookup (d : Dict) (k : String) : Option String :=
  match d with
  | [] => none
  | (a, b) :: rest => if a = k then some b else dictLookup rest k

/-- Python `d.get(k, v)`: the value at `k`, or the default `v` when absent. -/
def dictGetD (d : Dict) (k v : String) : String :=
  (dictLookup d k).getD v

/-- Python `s.startswith(p)`, at the character-list level (the builtin
`String.startsWith` is extensionally the same but does not evaluate inside
the kernel). -/
def strStartsWith (s p : String) : Bool :=
  List.isPrefixOf p.data s.data

/-- One engine operation invoked by the classifier, with the arguments the
source passes (session and timeout omitted: the session is scoped plumbing
and the timeout does not influence the classification logic modelled here). -/
inductive EngineCall where
  | dryPlan (sql data_source : String) (allow_fallback : Bool)
  | executeSql (sql : String) (project_id : Option String) (limit : Nat) (dry_run : Bool)
  deriving DecidableEq, Repr

/-- The engine collaborator (`src.core.engine.Engine`): `dry_plan` returns
`(ok, error_message)`, `execute_sql` returns `(status, data, addition)`.
A raised exception is the `.error` case. -/
structure Engine where
  dry_plan : String → String → Bool → Except String (Bool × String)
  execute_sql : String → Option String → Nat → Bool → Except String (Bool × Option String × Dict)

/-- `SQLGenPostProcessor._classify_generation_result`, translated from
`src/pipelines/generation/utils/sql.py` lines 73-176.  Returns the pair
`(valid_generation_result, invalid_generation_result)` (or the propagated
exception) together with the list of engine operations invoked. -/
def classify_generation_result (eng : Engine) (add_quotes : String → String × String)
    (generation_result : String) (project_id : Option String)
    (use_dry_plan : Bool) (allow_dry_plan_fallback : Bool)
    (data_source : String) (allow_data_preview : Bool) :
    Except String (Dict × Dict) × List EngineCall :=
  match add_quotes generation_result with
  | (quoted_sql, error_message) =>
    let use_dry_run := !allow_data_preview
    if error_message = "" then
      if use_dry_plan then
        let call := EngineCall.dryPlan quoted_sql data_source allow_dry_plan_fallback
        match eng.dry_plan quoted_sql data_source allow_dry_plan_fallback with
        | .error e => (.error e, [call])
        | .ok (dry_plan_result, em) =>
          if dry_plan_result then
            (.ok ([("sql", quoted_sql), ("correlation_id", "")], []), [call])
          else
            (.ok ([], [("sql", quoted_sql),
                       ("type", if strStartsWith em "Request timed out" then "TIME_OUT" else "DRY_PLAN"),
                       ("error", em),
                       ("correlation_id", "")]), [call])
      else if use_dry_run then
        let call := EngineCall.executeSql quoted_sql project_id 1 true
        match eng.execute_sql quoted_sql project_id 1 true with
        | .error e => (.error e, [call])
        | .ok (status, _, addition) =>
          if status then
            (.ok ([("sql", quoted_sql),
                   ("correlation_id", dictGetD addition "correlation_id" "")], []), [call])
          else
            let em := dictGetD addition "error_message" ""
            (.ok ([], [("sql", quoted_sql),
                       ("type", if strStartsWith em "Request timed out" then "TIME_OUT" else "DRY_RUN"),
                       ("error", em),
                       ("correlation_id", dictGetD addition "correlation_id" "")]), [call])
      else
        let call := EngineCall.executeSql quoted_sql project_id 1 false
        match eng.execute_sql quoted_sql project_id 1 false with
        | .error e => (.error e, [call])
        | .ok (status, _, addition) =>
          if status then
            (.ok ([("sql", quoted_sql),
                   ("correlation_id", dictGetD addition "correlation_id" "")], []), [call])
          else
            let em := dictGetD addition "error_message" ""
            let preview_data_status := if em = "" then "PREVIEW_EMPTY_DATA" else "PREVIEW_FAILED"
            (.ok ([], [("sql", quoted_sql),
                       ("type", if strStartsWith em "Request timed out" then "TIME_OUT" else preview_data_status),
                       ("error", em),
                       ("correlation_id", dictGetD addition "correlation_id" "")]), [call])
    else
      (.ok ([], [("sql", generation_result),
                 ("type", "ADD_QUOTES"),
                 ("error", error_message)]), [])

/-- The body of the `try` block of `SQLGenPostProcessor.run`
(`src/pipelines/generation/utils/sql.py` lines 39-64): take the first reply,
clean it, unwrap a JSON envelope when the cleaned text starts with a brace,
then classify.  `orjson_loads_sql` models `orjson.loads(text)["sql"]`
(an exception covering both malformed JSON and a missing key). -/
def run_body (eng : Engine) (add_quotes : String → String × String)
    (clean_generation_result : String → Except String String)
    (orjson_loads_sql : String → Except String String)
    (replies : List String) (project_id : Option String)
    (use_dry_plan : Bool) (allow_dry_plan_fallback : Bool)
    (data_source : String) (allow_data_preview : Bool) :
    Except String (Dict × Dict) × List EngineCall :=
  match replies.head? with
  | none => (.error "IndexError: list index out of range", [])
  | some first =>
    match clean_generation_result first with
    | .error e => (.error e, [])
    | .ok cleaned =>
      match (if strStartsWith cleaned "\x7b" then orjson_loads_sql cleaned else .ok cleaned) with
      | .error e => (.error e, [])
      | .ok candidate =>
        classify_generation_result eng add_quotes candidate project_id
          use_dry_plan allow_dry_plan_fallback data_source allow_data_preview

/-- The value returned by `SQLGenPostProcessor.run`: the two output mappings. -/
structure RunOutput where
  valid_generation_result : Dict
  invalid_generation_result : Dict
  deriving DecidableEq, Repr

/-- `SQLGenPostProcessor.run` (`src/pipelines/generation/utils/sql.py` lines
29-71): the `try` body, with every exception caught at this boundary and
converted into the degenerate result where both mappings are empty. -/
def run (eng : Engine) (add_quotes : String → String × String)
    (clean_generation_result : String → Except String String)
    (orjson_loads_sql : String → Except String String)
    (replies : List String) (project_id : Option String)
    (use_dry_plan : Bool) (allow_dry_plan_fallback : Bool)
    (data_source : String) (allow_data_preview : Bool) : RunOutput :=
  match (run_body eng add_quotes clean_generation_result orjson_loads_sql replies
      project_id use_dry_plan allow_dry_plan_fallback data_source allow_data_preview).1 with
  | .ok (valid, invalid) => ⟨valid, invalid⟩
  | .error _ => ⟨[], []⟩

end WrenSql

namespace Instructions

/-- `InstructionsService.Error` (`src/web/v1/services/instructions.py`
lines 25-27): the code is the literal "OTHERS". -/
structure Error where
  code : String
  message : String
  deriving DecidableEq, Repr

/-- `InstructionsService.Event` (`src/web/v1/services/instructions.py`
lines 29-34), with the source's field defaults. -/
structure Event where
  event_id : String
  status : String := "indexing"
  error : Option Error := none
  trace_id : Option String := none
  request_from : String := "ui"
  deriving DecidableEq, Repr

/-- The TTL event cache, abstracted to the association list of entries that
are currently present (an expired entry is simply absent). -/
abbrev Cache := List (String × Event)

/-- First entry of the cache under `event_id`, `none` when absent or
expired (`self._cache.get(event_id)`). -/
def cacheGet (c : Cache) (event_id : String) : Option Event :=
  match c with
  | [] => none
  | (k, e) :: rest => if k = event_id then some e else cacheGet rest event_id

/-- `InstructionsService.__getitem__` (`src/web/v1/services/instructions.py`
lines 164-176).  The cache is returned alongside the event: the source reads
`self._cache` but never writes to it, so the state component is unchanged. -/
def getItem (c : Cache) (event_id : String) : Event × Cache :=
  match cacheGet c event_id with
  | none =>
    ({ event_id := event_id
       status := "failed"
       error := some { code := "OTHERS"
                       message := "Instructions Event with ID \x27" ++ event_id ++ "\x27 not found." } }, c)
  | some response => (response, c)

end Instructions

namespace WrenSql

/-- Helper view on a classification result: the valid mapping, when no
exception was propagated. -/
def validPartOf (r : Except String (Dict × Dict)) : Option Dict :=
  match r with
  | .ok (valid, _) => some valid
  | .error _ => none

/-- Helper view on a classification result: the `type` field of the invalid
mapping, when no exception was propagated. -/
def invalidTypeOf (r : Except String (Dict × Dict)) : Option String :=
  match r with
  | .ok (_, invalid) => dictLookup invalid "type"
  | .error _ => none

/-- A deterministic quoting stub that always succeeds (used by concrete
instantiations of the theorems below). -/
def aqOk : String → String × String := fun s => ("[" ++ s ++ "]", "")

/-- A quoting stub that always reports an error. -/
def aqErr : String → String × String := fun _ => ("", "unterminated string literal")

/-- A cleanup stub that passes text through unchanged. -/
def cleanOk : String → Except String String := fun s => .ok s

/-- A JSON-envelope stub that always raises. -/
def jsonErr : String → Except String String := fun _ => .error "KeyError: sql"

/-- A deterministic stub engine whose operations always succeed. -/
def stubEngine : Engine where
  dry_plan := fun _ _ _ => .ok (true, "")
  execute_sql := fun _ _ _ _ => .ok (true, none, [("correlation_id", "abc")])

/-- A deterministic stub engine whose operations always fail with a
timed-out error message. -/
def timeoutEngine : Engine where
  dry_plan := fun _ _ _ => .ok (false, "Request timed out: 30s")
  execute_sql := fun _ _ _ _ =>
    .ok (false, none, [("correlation_id", "cid"), ("error_message", "Request timed out: 30s")])

/-- A deterministic stub engine whose execute operation fails with an empty
error message. -/
def emptyFailEngine : Engine where
  dry_plan := fun _ _ _ => .ok (false, "")
  execute_sql := fun _ _ _ _ =>
    .ok (false, none, [("correlation_id", "cid"), ("error_message", "")])

/-- Modelled from the spec: `orjson.loads(text)["sql"]` — the JSON-envelope
step of the normalizer — for the common flat envelope of the form
`\x7b"sql": "<query>"\x7d` with an unescaped string value (`orjson` is a
third-party collaborator, so only the behaviour the spec relies on is
modelled); any other shape raises (the `.error` case). -/
def jsonEnvelopeSql (text : String) : Except String String :=
  let dq : Char := Char.ofNat 34
  let ob : Char := Char.ofNat 123
  let cb : Char := Char.ofNat 125
  let co : Char := Char.ofNat 58
  match text.data.dropWhile Char.isWhitespace with
  | c :: rest =>
    if c == ob then
      let r1 := rest.dropWhile Char.isWhitespace
      if List.isPrefixOf [dq, 's', 'q', 'l', dq] r1 then
        let r2 := (r1.drop 5).dropWhile Char.isWhitespace
        match r2 with
        | c2 :: r3 =>
          if c2 == co then
            let r4 := r3.dropWhile Char.isWhitespace
            match r4 with
            | c3 :: r5 =>
              if c3 == dq then
                let v := r5.takeWhile (fun ch => !(ch == dq))
                let r6 := (r5.drop (v.length + 1)).dropWhile Char.isWhitespace
                match r6 with
                | c4 :: r7 =>
                  if c4 == cb && (r7.dropWhile Char.isWhitespace).isEmpty then
                    .ok (String.mk v)
                  else .error "JSONDecodeError: trailing data"
                | [] => .error "JSONDecodeError: unterminated object"
              else .error "JSONDecodeError: value is not a string"
            | [] => .error "JSONDecodeError: missing value"
          else .error "JSONDecodeError: expected colon"
        | [] => .error "JSONDecodeError: truncated object"
      else .error "KeyError: sql"
    else .error "JSONDecodeError: not an object"
  | [] => .error "JSONDecodeError: empty input"

/-- A deterministic stub engine whose operations always raise. -/
def faultEngine : Engine where
  dry_plan := fun _ _ _ => .error "ConnectionResetError"
  execute_sql := fun _ _ _ _ => .error "ConnectionResetError"

end WrenSql

/-- C1 (counterexample): at the concrete candidate "SELECT 1" whose quoting
fails with "unterminated string literal", the invalid mapping carries type
ADD_QUOTES but has no correlation_id key at all, so its correlation_id is
not the empty string as the claim states. -/
theorem C1_add_quotes_no_correlation_id :
    (WrenSql.classify_generation_result WrenSql.stubEngine WrenSql.aqErr "SELECT 1"
        none false true "" false).1 =
      .ok ([], [("sql", "SELECT 1"), ("type", "ADD_QUOTES"),
                ("error", "unterminated string literal")]) ∧
    WrenSql.dictLookup
      [("sql", "SELECT 1"), ("type", "ADD_QUOTES"), ("error", "unterminated string literal")]
      "correlation_id" = none := by
  refine ⟨rfl, rfl⟩

/-- C1 (amended): whenever the quoting transform reports a non-empty error,
the classifier returns the invalid mapping with type ADD_QUOTES, the original
unquoted candidate as sql, and the quoting error message — with no
correlation_id key — and invokes no engine operation. -/
theorem C1_add_quotes_short_circuit (eng : WrenSql.Engine)
    (add_quotes : String → String × String) (cand : String) (pid : Option String)
    (udp fb : Bool) (ds : String) (adp : Bool) (q e : String)
    (haq : add_quotes cand = (q, e)) (hne : e ≠ "") :
    WrenSql.classify_generation_result eng add_quotes cand pid udp fb ds adp =
      (.ok ([], [("sql", cand), ("type", "ADD_QUOTES"), ("error", e)]), []) := by
  unfold WrenSql.classify_generation_result
  rw [haq]
  simp [hne]

/-- C1 witness: the amended theorem at a concrete quoting failure. -/
theorem C1_add_quotes_short_circuit_witness :
    WrenSql.aqErr "SELECT 1" = ("", "unterminated string literal") ∧
    "unterminated string literal" ≠ "" ∧
    WrenSql.classify_generation_result WrenSql.stubEngine WrenSql.aqErr "SELECT 1"
        none false true "" false =
      (.ok ([], [("sql", "SELECT 1"), ("type", "ADD_QUOTES"),
                 ("error", "unterminated string literal")]), []) :=
  ⟨rfl, by decide,
   C1_add_quotes_short_circuit WrenSql.stubEngine WrenSql.aqErr "SELECT 1"
     none false true "" false "" "unterminated string literal" rfl (by decide)⟩

/-- C2: whenever the try-block body of `run` raises (malformed JSON, missing
sql key, collaborator or engine fault, empty replies), `run` returns the
degenerate output in which both mappings are empty. -/
theorem C2_run_catches_all_exceptions (eng : WrenSql.Engine)
    (add_quotes : String → String × String)
    (clean : String → Except String String) (json : String → Except String String)
    (replies : List String) (pid : Option String) (udp fb : Bool) (ds : String)
    (adp : Bool) (e : String)
    (h : (WrenSql.run_body eng add_quotes clean json replies pid udp fb ds adp).1 = .error e) :
    WrenSql.run eng add_quotes clean json replies pid udp fb ds adp = ⟨[], []⟩ := by
  unfold WrenSql.run
  rw [h]

/-- C2 witness: a reply whose cleaned text starts with a brace while the
JSON envelope lookup raises a missing-key error yields the degenerate
output. -/
theorem C2_run_catches_all_exceptions_witness :
    (WrenSql.run_body WrenSql.stubEngine WrenSql.aqOk WrenSql.cleanOk WrenSql.jsonErr
        ["\x7b\x7d"] none false true "" false).1 = .error "KeyError: sql" ∧
    WrenSql.run WrenSql.stubEngine WrenSql.aqOk WrenSql.cleanOk WrenSql.jsonErr
        ["\x7b\x7d"] none false true "" false = ⟨[], []⟩ :=
  ⟨rfl,
   C2_run_catches_all_exceptions WrenSql.stubEngine WrenSql.aqOk WrenSql.cleanOk
     WrenSql.jsonErr ["\x7b\x7d"] none false true "" false "KeyError: sql" rfl⟩

/-- Helper for C3: a classification that propagates no exception populates
exactly one of the two mappings. -/
theorem classify_exactly_one (eng : WrenSql.Engine) (aq : String → String × String)
    (cand : String) (pid : Option String) (udp fb : Bool) (ds : String) (adp : Bool)
    (v i : WrenSql.Dict)
    (h : (WrenSql.classify_generation_result eng aq cand pid udp fb ds adp).1 = .ok (v, i)) :
    (v ≠ [] ∧ i = []) ∨ (v = [] ∧ i ≠ []) := by
  cases udp <;> cases adp <;>
      (unfold WrenSql.classify_generation_result at h
       simp only [Bool.not_true, Bool.not_false] at h
       repeat' split at h) <;>
    first
    | contradiction
    | (dsimp only at h
       exact Except.noConfusion h)
    | (dsimp only at h
       injection h with h2
       injection h2 with h3 h4
       subst h3
       subst h4
       simp)

/-- C3: on every call whose try-block body completes without an exception,
`run` returns its two mappings and exactly one of them is non-empty; the
both-empty output arises only from the exception path. -/
theorem C3_exactly_one_populated (eng : WrenSql.Engine)
    (add_quotes : String → String × String)
    (clean : String → Except String String) (json : String → Except String String)
    (replies : List String) (pid : Option String) (udp fb : Bool) (ds : String)
    (adp : Bool) (v i : WrenSql.Dict)
    (h : (WrenSql.run_body eng add_quotes clean json replies pid udp fb ds adp).1 = .ok (v, i)) :
    WrenSql.run eng add_quotes clean json replies pid udp fb ds adp = ⟨v, i⟩ ∧
      ((v ≠ [] ∧ i = []) ∨ (v = [] ∧ i ≠ [])) := by
  constructor
  · unfold WrenSql.run
    rw [h]
  · unfold WrenSql.run_body at h
    repeat' split at h
    all_goals
      first
      | exact classify_exactly_one _ _ _ _ _ _ _ _ _ _ h
      | simp_all

/-- C3 witness: a concrete successful dry-run classification populates the
valid mapping only. -/
theorem C3_exactly_one_populated_witness :
    (WrenSql.run_body WrenSql.stubEngine WrenSql.aqOk WrenSql.cleanOk WrenSql.jsonErr
        ["SELECT 1"] none false true "" false).1 =
      .ok ([("sql", "[SELECT 1]"), ("correlation_id", "abc")], []) ∧
    WrenSql.run WrenSql.stubEngine WrenSql.aqOk WrenSql.cleanOk WrenSql.jsonErr
        ["SELECT 1"] none false true "" false =
      ⟨[("sql", "[SELECT 1]"), ("correlation_id", "abc")], []⟩ ∧
      (([("sql", "[SELECT 1]"), ("correlation_id", "abc")] : WrenSql.Dict) ≠ [] ∧
          ([] : WrenSql.Dict) = [] ∨
        ([("sql", "[SELECT 1]"), ("correlation_id", "abc")] : WrenSql.Dict) = [] ∧
          ([] : WrenSql.Dict) ≠ []) :=
  ⟨rfl,
   C3_exactly_one_populated WrenSql.stubEngine WrenSql.aqOk WrenSql.cleanOk WrenSql.jsonErr
     ["SELECT 1"] none false true "" false
     [("sql", "[SELECT 1]"), ("correlation_id", "abc")] [] rfl⟩

/-- C4: when every engine operation fails with a message that starts with
"Request timed out", the invalid mapping carries type TIME_OUT in every mode
(both flags quantified), overriding the mode-specific categories. -/
theorem C4_timeout_prefix_wins (eng : WrenSql.Engine) (aq : String → String × String)
    (cand : String) (pid : Option String) (fb : Bool) (ds : String) (udp adp : Bool)
    (q m1 : String) (r2 : Option String) (a2 : WrenSql.Dict)
    (r3 : Option String) (a3 : WrenSql.Dict)
    (haq : aq cand = (q, ""))
    (hdp : eng.dry_plan q ds fb = .ok (false, m1))
    (hm1 : WrenSql.strStartsWith m1 "Request timed out" = true)
    (hdr : eng.execute_sql q pid 1 true = .ok (false, r2, a2))
    (hm2 : WrenSql.strStartsWith (WrenSql.dictGetD a2 "error_message" "") "Request timed out" = true)
    (hlp : eng.execute_sql q pid 1 false = .ok (false, r3, a3))
    (hm3 : WrenSql.strStartsWith (WrenSql.dictGetD a3 "error_message" "") "Request timed out" = true) :
    WrenSql.validPartOf
        (WrenSql.classify_generation_result eng aq cand pid udp fb ds adp).1 = some [] ∧
    WrenSql.invalidTypeOf
        (WrenSql.classify_generation_result eng aq cand pid udp fb ds adp).1 = some "TIME_OUT" := by
  unfold WrenSql.classify_generation_result
  rw [haq]
  cases udp <;> cases adp <;>
    simp_all [WrenSql.validPartOf, WrenSql.invalidTypeOf, WrenSql.dictLookup]

/-- C4 witness: the timed-out stub engine, in dry-plan mode. -/
theorem C4_timeout_prefix_wins_witness :
    WrenSql.validPartOf
        (WrenSql.classify_generation_result WrenSql.timeoutEngine WrenSql.aqOk "SELECT 1"
          none true true "duckdb" false).1 = some [] ∧
    WrenSql.invalidTypeOf
        (WrenSql.classify_generation_result WrenSql.timeoutEngine WrenSql.aqOk "SELECT 1"
          none true true "duckdb" false).1 = some "TIME_OUT" :=
  C4_timeout_prefix_wins WrenSql.timeoutEngine WrenSql.aqOk "SELECT 1" none true "duckdb"
    true false "[SELECT 1]" "Request timed out: 30s" none
    [("correlation_id", "cid"), ("error_message", "Request timed out: 30s")] none
    [("correlation_id", "cid"), ("error_message", "Request timed out: 30s")]
    rfl rfl (by decide) rfl (by decide) rfl (by decide)

/-- C5: in live-preview mode an engine-execute failure is classified as
TIME_OUT on a timed-out message, else PREVIEW_EMPTY_DATA on an empty
message, else PREVIEW_FAILED. -/
theorem C5_live_preview_failure_taxonomy (eng : WrenSql.Engine)
    (aq : String → String × String) (cand : String) (pid : Option String)
    (fb : Bool) (ds : String) (q : String) (r : Option String) (a : WrenSql.Dict)
    (haq : aq cand = (q, ""))
    (hex : eng.execute_sql q pid 1 false = .ok (false, r, a)) :
    (WrenSql.classify_generation_result eng aq cand pid false fb ds true).1 =
      .ok ([], [("sql", q),
                ("type",
                  if WrenSql.strStartsWith (WrenSql.dictGetD a "error_message" "") "Request timed out"
                  then "TIME_OUT"
                  else if WrenSql.dictGetD a "error_message" "" = ""
                  then "PREVIEW_EMPTY_DATA"
                  else "PREVIEW_FAILED"),
                ("error", WrenSql.dictGetD a "error_message" ""),
                ("correlation_id", WrenSql.dictGetD a "correlation_id" "")]) := by
  unfold WrenSql.classify_generation_result
  rw [haq]
  simp [hex]

/-- C5 witness: a live-preview failure with an empty error message is
classified as PREVIEW_EMPTY_DATA. -/
theorem C5_live_preview_failure_taxonomy_witness :
    (WrenSql.classify_generation_result WrenSql.emptyFailEngine WrenSql.aqOk "SELECT 1"
        none false true "" true).1 =
      .ok ([], [("sql", "[SELECT 1]"), ("type", "PREVIEW_EMPTY_DATA"), ("error", ""),
                ("correlation_id", "cid")]) := by
  have h := C5_live_preview_failure_taxonomy WrenSql.emptyFailEngine WrenSql.aqOk "SELECT 1"
    none true "" "[SELECT 1]" none [("correlation_id", "cid"), ("error_message", "")] rfl rfl
  simpa using h

/-- C6: whenever the engine reports success, the outcome is the valid
mapping carrying the quoted SQL (never the raw candidate); its
correlation_id is the empty string in dry-plan mode and is read from the
addition mapping with default "" in dry-run and live-preview modes. -/
theorem C6_engine_success_gives_valid (eng : WrenSql.Engine)
    (aq : String → String × String) (cand : String) (pid : Option String)
    (fb : Bool) (ds : String) (q : String)
    (haq : aq cand = (q, "")) :
    (∀ (adp : Bool) (m : String), eng.dry_plan q ds fb = .ok (true, m) →
        (WrenSql.classify_generation_result eng aq cand pid true fb ds adp).1 =
          .ok ([("sql", q), ("correlation_id", "")], [])) ∧
    (∀ (r : Option String) (a : WrenSql.Dict),
        eng.execute_sql q pid 1 true = .ok (true, r, a) →
        (WrenSql.classify_generation_result eng aq cand pid false fb ds false).1 =
          .ok ([("sql", q), ("correlation_id", WrenSql.dictGetD a "correlation_id" "")], [])) ∧
    (∀ (r : Option String) (a : WrenSql.Dict),
        eng.execute_sql q pid 1 false = .ok (true, r, a) →
        (WrenSql.classify_generation_result eng aq cand pid false fb ds true).1 =
          .ok ([("sql", q), ("correlation_id", WrenSql.dictGetD a "correlation_id" "")], [])) := by
  refine ⟨?_, ?_, ?_⟩
  · intro adp m hdp
    unfold WrenSql.classify_generation_result
    rw [haq]
    simp [hdp]
  · intro r a hex
    unfold WrenSql.classify_generation_result
    rw [haq]
    simp [hex]
  · intro r a hex
    unfold WrenSql.classify_generation_result
    rw [haq]
    simp [hex]

/-- C6 witness: the always-successful stub engine in dry-run mode returns
the quoted SQL with the correlation id from the addition mapping. -/
theorem C6_engine_success_gives_valid_witness :
    (WrenSql.classify_generation_result WrenSql.stubEngine WrenSql.aqOk "SELECT 1"
        none false true "" false).1 =
      .ok ([("sql", "[SELECT 1]"), ("correlation_id", "abc")], []) := by
  have h := (C6_engine_success_gives_valid WrenSql.stubEngine WrenSql.aqOk "SELECT 1"
    none true "" "[SELECT 1]" rfl).2.1 none [("correlation_id", "abc")] rfl
  simpa using h

/-- C7: the engine operation actually invoked follows the fixed priority
order on the two flags: dry-plan when use_dry_plan, otherwise execute with
dry_run=true and limit 1 when data preview is not allowed, otherwise
execute with dry_run=false and limit 1. -/
theorem C7_strategy_selection (eng : WrenSql.Engine) (aq : String → String × String)
    (cand : String) (pid : Option String) (fb : Bool) (ds : String)
    (udp adp : Bool) (q : String)
    (haq : aq cand = (q, "")) :
    (WrenSql.classify_generation_result eng aq cand pid udp fb ds adp).2 =
      [if udp then WrenSql.EngineCall.dryPlan q ds fb
       else if adp then WrenSql.EngineCall.executeSql q pid 1 false
       else WrenSql.EngineCall.executeSql q pid 1 true] := by
  unfold WrenSql.classify_generation_result
  rw [haq]
  cases udp <;> cases adp <;> (repeat' split) <;> simp_all

/-- C7 witness: with both flags set, the sole engine call is the dry-plan
operation, not live preview. -/
theorem C7_strategy_selection_witness :
    (WrenSql.classify_generation_result WrenSql.stubEngine WrenSql.aqOk "SELECT 1"
        (some "p1") true true "duckdb" true).2 =
      [WrenSql.EngineCall.dryPlan "[SELECT 1]" "duckdb" true] := by
  have h := C7_strategy_selection WrenSql.stubEngine WrenSql.aqOk "SELECT 1" (some "p1")
    true "duckdb" true true "[SELECT 1]" rfl
  simpa using h

/-- C8: when the cleaned first reply starts with a brace, the candidate that
reaches quoting and classification is the value of the envelope's `sql` key;
otherwise the cleaned text itself is used unchanged. -/
theorem C8_normalizer_json_envelope (eng : WrenSql.Engine)
    (add_quotes : String → String × String)
    (clean : String → Except String String) (json : String → Except String String)
    (r0 : String) (rest : List String) (pid : Option String) (udp fb : Bool)
    (ds : String) (adp : Bool) (c : String)
    (hc : clean r0 = .ok c) :
    (WrenSql.strStartsWith c "\x7b" = true →
        ∀ s, json c = .ok s →
          WrenSql.run_body eng add_quotes clean json (r0 :: rest) pid udp fb ds adp =
            WrenSql.classify_generation_result eng add_quotes s pid udp fb ds adp) ∧
    (WrenSql.strStartsWith c "\x7b" = false →
        WrenSql.run_body eng add_quotes clean json (r0 :: rest) pid udp fb ds adp =
          WrenSql.classify_generation_result eng add_quotes c pid udp fb ds adp) := by
  constructor
  · intro hb s hs
    unfold WrenSql.run_body
    simp [hc, hb, hs]
  · intro hb
    unfold WrenSql.run_body
    simp [hc, hb]

/-- C8 witness: the reply `\x7b"sql": "SELECT 1"\x7d` is unwrapped to
`SELECT 1` before quoting and classification. -/
theorem C8_normalizer_json_envelope_witness :
    WrenSql.cleanOk "\x7b\"sql\": \"SELECT 1\"\x7d" = .ok "\x7b\"sql\": \"SELECT 1\"\x7d" ∧
    WrenSql.strStartsWith "\x7b\"sql\": \"SELECT 1\"\x7d" "\x7b" = true ∧
    WrenSql.jsonEnvelopeSql "\x7b\"sql\": \"SELECT 1\"\x7d" = .ok "SELECT 1" ∧
    WrenSql.run_body WrenSql.stubEngine WrenSql.aqOk WrenSql.cleanOk WrenSql.jsonEnvelopeSql
        ["\x7b\"sql\": \"SELECT 1\"\x7d"] none false true "" false =
      WrenSql.classify_generation_result WrenSql.stubEngine WrenSql.aqOk "SELECT 1"
        none false true "" false :=
  ⟨rfl, rfl, rfl,
   (C8_normalizer_json_envelope WrenSql.stubEngine WrenSql.aqOk WrenSql.cleanOk
       WrenSql.jsonEnvelopeSql "\x7b\"sql\": \"SELECT 1\"\x7d" [] none false true "" false
       "\x7b\"sql\": \"SELECT 1\"\x7d" rfl).1 rfl "SELECT 1" rfl⟩

/-- C9: the output of `run` depends only on element 0 of the replies
sequence — trailing candidates never influence the returned pair. -/
theorem C9_only_first_reply_used (eng : WrenSql.Engine)
    (add_quotes : String → String × String)
    (clean : String → Except String String) (json : String → Except String String)
    (r0 : String) (rest1 rest2 : List String) (pid : Option String)
    (udp fb : Bool) (ds : String) (adp : Bool) :
    WrenSql.run eng add_quotes clean json (r0 :: rest1) pid udp fb ds adp =
      WrenSql.run eng add_quotes clean json (r0 :: rest2) pid udp fb ds adp := rfl

/-- C10: looking up an event id that is absent from (or expired out of) the
cache does not raise: it returns a fresh failed Event with code OTHERS whose
message names the missing id, and leaves the cache unchanged. -/
theorem C10_missing_event_lookup (c : Instructions.Cache) (event_id : String)
    (h : Instructions.cacheGet c event_id = none) :
    Instructions.getItem c event_id =
      ({ event_id := event_id
         status := "failed"
         error := some { code := "OTHERS"
                         message := "Instructions Event with ID \x27" ++ event_id ++ "\x27 not found." }
         trace_id := none
         request_from := "ui" }, c) := by
  unfold Instructions.getItem
  rw [h]

/-- C10 witness: the lookup of "abc" in an empty cache. -/
theorem C10_missing_event_lookup_witness :
    Instructions.cacheGet [] "abc" = none ∧
    Instructions.getItem [] "abc" =
      ({ event_id := "abc"
         status := "failed"
         error := some { code := "OTHERS"
                         message := "Instructions Event with ID \x27abc\x27 not found." }
         trace_id := none
         request_from := "ui" }, []) :=
  ⟨rfl, by rw [C10_missing_event_lookup [] "abc" rfl]; rfl⟩
